import Mathlib

/-!
# Verification of the fei_da_mcp data-analysis MCP server

Shallow embedding, in Lean 4, of the tool handlers of the `fei_da_mcp`
repository (a small MCP server exposing BigQuery/CSV exploration tools, a
table profiler, a trend-based MRR forecaster, a composite forecast report
and an email-delivered sales report), together with theorems settling the
behavioural claims about them.

Modelling conventions:
* Python floats are modelled as exact rationals (`ℚ`); `round(x, n)` is
  modelled by `pyRound`, Python's round-half-to-even on exact values.
* pandas dataframes are modelled as lists of typed row records; a column is
  the list of the corresponding fields.  `Series.tail(n)` is `pdTail n`,
  `Series.mean()` on a NaN-free series is `seriesMean`.
* Warehouse calls are modelled by passing each query's outcome as an
  `Except String _` argument; each handler additionally returns the number
  of warehouse-client calls it performed, so that "no query is issued" is
  a provable statement.
* A handler body wrapped in `try/except` is modelled with an explicit
  error constructor for the caught-exception paths.
-/

namespace Damcp

/-- Python's `round` to an integer: round half to even (banker's rounding),
on exact rational inputs.  `round(x)` in Python returns the nearest integer,
ties going to the even neighbour. -/
def pyRoundInt (x : ℚ) : ℤ :=
  let f := x.floor
  if x - f < 1 / 2 then f
  else if x - f > 1 / 2 then f + 1
  else if f % 2 = 0 then f else f + 1

/-- Python's `round(x, n)`: round to `n` decimal places, ties to even. -/
def pyRound (x : ℚ) (n : ℕ) : ℚ :=
  (pyRoundInt (x * 10 ^ n) : ℚ) / 10 ^ n

/-- pandas `Series.tail(n)` / `DataFrame.tail(n)`: the last `n` elements
(all of them when fewer than `n` exist). -/
def pdTail (n : ℕ) (l : List α) : List α := l.drop (l.length - n)

/-- pandas `Series.mean()` of a NaN-free numeric series. -/
def seriesMean (l : List ℚ) : ℚ := l.sum / (l.length : ℚ)

/-! ## Trend forecaster

Embeds `_forecast_trend` in `src/domains/_1_forecast_mmr/tools.py`
(the same loop appears in the offline batch job
`src/domains/_1_forecast_mrr/run.py`, step 5).  One input row of the
`v_model_3_levers` view carries the week (modelled as a day number, so
that `pd.Timedelta(weeks=k)` is `+ 7 * k`), the total MRR and the
week-over-week MRR change. -/

structure TrendRow where
  week : ℤ
  total_mrr : ℚ
  mrr_change : ℚ
deriving DecidableEq

/-- One entry of the `predictions` list built by `_forecast_trend`:
`{"week": week_date, "predicted_mrr": round(forecast_mrr, 0),
"change_pct": round(change_pct, 1)}`. -/
structure ForecastPoint where
  week : ℤ
  predicted_mrr : ℚ
  change_pct : ℚ
deriving DecidableEq

/-- The `for i in range(weeks)` loop of `_forecast_trend`: starting from the
running value `fm` after `k` iterations, produce the remaining `n`
prediction rows.  Each iteration adds the constant `avg` to the running
forecast value. -/
def trendPredict (last_mrr avg : ℚ) (last_week : ℤ) (fm : ℚ) (k n : ℕ) :
    List ForecastPoint :=
  match n with
  | 0 => []
  | Nat.succ m =>
    let fm2 := fm + avg
    { week := last_week + 7 * ((k : ℤ) + 1),
      predicted_mrr := pyRound fm2 0,
      change_pct := pyRound ((fm2 - last_mrr) / last_mrr * 100) 1 } ::
    trendPredict last_mrr avg last_week fm2 (k + 1) m

/-- The JSON payload of a successful `forecast_trend` tool call. -/
structure TrendOut where
  baseline_mrr : ℚ
  weekly_trend : ℚ
  predictions : List ForecastPoint
deriving DecidableEq

/-- `_forecast_trend` (`src/domains/_1_forecast_mmr/tools.py`): take the last
observed MRR as baseline, average the last 4 `mrr_change` deltas as the
weekly trend, and extrapolate `weeks` weeks ahead.  `none` models the
handler's caught-exception path (an empty result set makes `iloc[-1]`
raise, which the blanket `except` converts to an error payload). -/
def forecast_trend (rows : List TrendRow) (weeks : ℕ) : Option TrendOut :=
  match rows.getLast? with
  | none => none
  | some last =>
    let last_mrr := last.total_mrr
    let last_week := last.week
    let avg_change := seriesMean (pdTail 4 (rows.map (·.mrr_change)))
    some { baseline_mrr := pyRound last_mrr 0,
           weekly_trend := pyRound avg_change 0,
           predictions := trendPredict last_mrr avg_change last_week last_mrr 0 weeks }

/-! ## Generic BigQuery exploration tools

Embeds the handlers of `src/domains/_0_general_analysis/tools.py` (the same
code, minus `profile_table`, appears in `src/tools.py`).  Each handler gets
the outcome of its warehouse call(s) as an `Except` argument and returns
its JSON payload together with the number of warehouse-client calls made. -/

/-- The uniform `{success: true, ...}` / `{success: false, error: ...}`
JSON shape of the tool responses. -/
inductive ToolOut (α : Type) where
  | ok (val : α)
  | err (error : String)
deriving DecidableEq

/-- A tabular warehouse result: column names plus rows. -/
structure DataFrame (Row : Type) where
  cols : List String
  rows : List Row
deriving DecidableEq

/-- Python truthiness of an optional string argument: `not s` holds exactly
for an absent argument and for the empty string. -/
def isBlank (s : Option String) : Bool := s.getD "" = ""

/-- `_list_tables`: `dataset` is required; on success return the dataset id,
the table ids and their count. -/
def list_tables (dataset : Option String)
    (clientTables : Except String (List String)) :
    ToolOut (String × List String × ℕ) × ℕ :=
  if isBlank dataset then (.err "dataset is required", 0)
  else
    match clientTables with
    | .ok ts => (.ok (dataset.getD "", ts, ts.length), 1)
    | .error e => (.err e, 1)

/-- One field of a BigQuery table schema (`SchemaField`). -/
structure BQField where
  name : String
  field_type : String
  mode : String
deriving DecidableEq

/-- What `client.get_table` returns, as used by the handlers. -/
structure TableInfo where
  num_rows : ℕ
  schema : List BQField
deriving DecidableEq

/-- `_describe_table`: `table` is required; on success return the table id,
its row count and its schema as `(name, type, mode)` triples. -/
def describe_table (table : Option String)
    (getTable : Except String TableInfo) :
    ToolOut (String × ℕ × List (String × String × String)) × ℕ :=
  if isBlank table then (.err "table is required", 0)
  else
    match getTable with
    | .ok ti =>
      (.ok (table.getD "", ti.num_rows,
            ti.schema.map fun f => (f.name, f.field_type, f.mode)), 1)
    | .error e => (.err e, 1)

/-- `_sample_table`: `table` is required; on success return the table id, the
requested sample size, the columns and the sampled rows (`SELECT * ... LIMIT
rows`, whose outcome is the `sampleQuery` argument). -/
def sample_table (Row : Type) (table : Option String) (rows : ℕ)
    (sampleQuery : Except String (DataFrame Row)) :
    ToolOut (String × ℕ × List String × List Row) × ℕ :=
  if isBlank table then (.err "table is required", 0)
  else
    match sampleQuery with
    | .ok df => (.ok (table.getD "", rows, df.cols, df.rows), 1)
    | .error e => (.err e, 1)

/-- `_query_bigquery`: `sql` is required (note the error message is
`"sql query is required"`); the full result set is materialised, then cut to
the first `limit` rows, with `truncated` flagging whether the cut removed
anything.  The payload is `(rows, columns, data, truncated)`. -/
def query_bigquery (Row : Type) (sql : Option String) (limit : ℕ)
    (query : Except String (DataFrame Row)) :
    ToolOut (ℕ × List String × List Row × Bool) × ℕ :=
  if isBlank sql then (.err "sql query is required", 0)
  else
    match query with
    | .ok df =>
      let truncated := decide (df.rows.length > limit)
      let data := if df.rows.length > limit then df.rows.take limit else df.rows
      (.ok (data.length, df.cols, data, truncated), 1)
    | .error e => (.err e, 1)

/-! ## Table profiler (`_profile_table`, `src/domains/_0_general_analysis/tools.py`) -/

/-- One entry of the per-column profile. -/
structure ProfCol where
  name : String
  type : String
  null_pct : Option ℚ
  distinct_count : Option ℕ
deriving DecidableEq

/-- The successful profile payload. -/
structure ProfileOut where
  table : String
  row_count : ℕ
  column_count : ℕ
  columns_profiled : ℕ
  profile : List ProfCol
deriving DecidableEq

/-- The loop body of `_profile_table`: one per-column stats query (null
count, distinct count), with its `try/except` that degrades a failed
column's stats to null.  `null_pct` divides by `row_count` only when
`row_count > 0`, else reports `0`. -/
def profileColumn (row_count : ℕ) (stats : String → Except String (ℕ × ℕ))
    (f : BQField) : ProfCol :=
  match stats f.name with
  | .ok (null_count, distinct_count) =>
    { name := f.name, type := f.field_type,
      null_pct := some (if row_count > 0
        then pyRound ((null_count : ℚ) / (row_count : ℚ) * 100) 1 else 0),
      distinct_count := some distinct_count }
  | .error _ =>
    { name := f.name, type := f.field_type,
      null_pct := none, distinct_count := none }

/-- `_profile_table`: `table` is required; fetch the schema once
(`client.get_table`, the first client call), then issue one stats query per
column for the first 20 schema columns.  The returned call count is
`1 + (number of per-column queries)`. -/
def profile_table (table : Option String)
    (getTable : Except String TableInfo)
    (stats : String → Except String (ℕ × ℕ)) :
    ToolOut ProfileOut × ℕ :=
  if isBlank table then (.err "table is required", 0)
  else
    match getTable with
    | .ok ti =>
      let profiled := (ti.schema.take 20).map (profileColumn ti.num_rows stats)
      (.ok { table := table.getD "", row_count := ti.num_rows,
             column_count := ti.schema.length,
             columns_profiled := profiled.length,
             profile := profiled },
       1 + (ti.schema.take 20).length)
    | .error e => (.err e, 1)

/-! ## Composite MRR forecast report (`_forecast_mrr_report`, `src/tools.py`)

The report issues three independent queries (the `v_model_3_levers` weekly
series, the feature-importance table, the next-best-action deals view) and
assembles their results.  We model each query's outcome as an `Except`
input, and the report as a record of the data that populates each section
of the rendered text (the f-string rendering itself — currency formatting,
column padding — is abstracted away; every value interpolated into the text
is a field of `MmrReport`).  Numeric NaNs are modelled as the values left
after the code's `fillna(0)`. -/

/-- One row of the `v_model_3_levers` weekly view, restricted to the columns
the report handlers read.  `week` is a day number (dates order like
integers). -/
structure LeversRow where
  week : ℤ
  total_mrr : ℚ
  mrr_change : ℚ
  win_rate_pct : ℚ
  at_risk_pct : ℚ
  at_risk_deals : ℤ
deriving DecidableEq

/-- One row of `t_forecast_feature_importance` as consumed by the report
(`.get('lever', ...)`, `.get('feature', '')`, `.get('importance_pct', 0)`).
The fallback row has no `feature` key, hence the `Option`. -/
structure Feature where
  lever : String
  importance_pct : ℚ
  feature : Option String
deriving DecidableEq

/-- One row of the `v_next_best_action` deals view, restricted to the fields
the report reads. -/
structure Deal where
  company_name : String
  action_type : String
  mrr : ℚ
  deal_velocity_days : ℚ
  b2b_region : String
deriving DecidableEq

/-- One entry of the report's `predictions` list:
`{"week": i + 1, "mrr": round(forecast_mrr / 1000, 0)}`. -/
structure RepPred where
  week : ℕ
  mrr : ℚ
deriving DecidableEq

/-- One row of the report's 15-week history section
(`df[['week','total_mrr','mrr_change','win_rate_pct','at_risk_pct']]`). -/
structure HistRow where
  week : ℤ
  total_mrr : ℚ
  mrr_change : ℚ
  win_rate_pct : ℚ
  at_risk_pct : ℚ
deriving DecidableEq

/-- Projection of a levers row onto the history columns. -/
def histProj (r : LeversRow) : HistRow :=
  { week := r.week, total_mrr := r.total_mrr, mrr_change := r.mrr_change,
    win_rate_pct := r.win_rate_pct, at_risk_pct := r.at_risk_pct }

/-- Stable insertion into a week-ascending list (helper for `sortByWeek`). -/
def insertByWeek (r : LeversRow) : List LeversRow → List LeversRow
  | [] => [r]
  | x :: xs => if x.week < r.week then x :: insertByWeek r xs else r :: x :: xs

/-- `df.sort_values('week')`: stable ascending sort by the week column. -/
def sortByWeek : List LeversRow → List LeversRow
  | [] => []
  | x :: xs => insertByWeek x (sortByWeek xs)

/-- Placeholder row; only read behind emptiness guards. -/
def defaultLeversRow : LeversRow :=
  { week := 0, total_mrr := 0, mrr_change := 0, win_rate_pct := 0,
    at_risk_pct := 0, at_risk_deals := 0 }

/-- `df.iloc[-1]` — the latest (last) row of the week-sorted series. -/
def lastRowOf (l : List LeversRow) : LeversRow :=
  l.getLast?.getD defaultLeversRow

/-- `prev = df.iloc[-2] if len(df) > 1 else latest`. -/
def prevRowOf (l : List LeversRow) : LeversRow :=
  if 1 < l.length then l.dropLast.getLast?.getD defaultLeversRow
  else lastRowOf l

/-- The report's forecast loop: `for i in range(4): forecast_mrr += avg;
predictions.append({"week": i+1, "mrr": round(forecast_mrr/1000, 0)})`. -/
def reportPredict (avg fm : ℚ) (k n : ℕ) : List RepPred :=
  match n with
  | 0 => []
  | Nat.succ m =>
    let fm2 := fm + avg
    { week := k + 1, mrr := pyRound (fm2 / 1000) 0 } ::
    reportPredict avg fm2 (k + 1) m

/-- The data populating each section of the weekly MRR forecast report. -/
structure MmrReport where
  current_mrr : ℚ
  wow_change : ℚ
  wow_pct : ℚ
  win_rate : ℚ
  at_risk_pct : ℚ
  at_risk_deals : ℤ
  avg_change : ℚ
  predictions : List RepPred
  top_features : List Feature
  deals_to_win : List Deal
  deals_to_save : List Deal
  history : List HistRow
deriving DecidableEq

/-- Sections computed from the week-sorted levers rows plus the (already
fallback-resolved) feature and deal query results.  Mirrors steps 1–5 of
`_forecast_mrr_report`. -/
def assembleReport (sorted : List LeversRow) (top_features : List Feature)
    (deals : List Deal) : MmrReport :=
  let latest := lastRowOf sorted
  let prev := prevRowOf sorted
  let avg_change := seriesMean (pdTail 4 (sorted.map (·.mrr_change)))
  { current_mrr := latest.total_mrr
    wow_change := latest.mrr_change
    wow_pct := if prev.total_mrr = 0 then 0
               else latest.mrr_change / prev.total_mrr * 100
    win_rate := latest.win_rate_pct
    at_risk_pct := latest.at_risk_pct
    at_risk_deals := latest.at_risk_deals
    avg_change := avg_change
    predictions := reportPredict avg_change latest.total_mrr 0 4
    top_features := top_features
    deals_to_win := deals.filter (·.action_type == "WIN")
    deals_to_save := deals.filter (·.action_type == "SAVE")
    history := (pdTail 15 sorted).map histProj }

/-- The outcomes of the report's three warehouse queries. -/
structure ReportInputs where
  levers : Except String (List LeversRow)
  features : Except String (List Feature)
  deals : Except String (List Deal)

/-- A report tool response: either the assembled report or the text produced
by the handler's blanket `except` clause. -/
inductive ReportOut where
  | report (r : MmrReport)
  | error (msg : String)
deriving DecidableEq

/-- `_forecast_mrr_report`: a failing levers query (or an empty series,
which makes `iloc[-1]` raise) aborts via the blanket `except`; a failing
feature-importance query falls back to
`[{"lever": "Deal Close", "importance_pct": 74}]`; a failing deals query
falls back to empty deal lists; otherwise every section is assembled from
its own query's rows. -/
def forecast_mrr_report (inp : ReportInputs) : ReportOut :=
  match inp.levers with
  | .error e => .error ("Error: " ++ e)
  | .ok rows =>
    let sorted := sortByWeek rows
    if sorted.isEmpty then
      .error "Error: single positional indexer is out-of-bounds"
    else
      let top_features :=
        match inp.features with
        | .ok fs => fs
        | .error _ => [{ lever := "Deal Close", importance_pct := 74,
                         feature := none }]
      let deals :=
        match inp.deals with
        | .ok ds => ds
        | .error _ => []
      .report (assembleReport sorted top_features deals)

/-! ## CSV server (`src/main.py`)

The standalone DA-MCP server serves CSV tables loaded in memory.  A loaded
table is modelled cell-wise (column names plus string-rendered cell rows),
so that column selection is observable in the data payload. -/

/-- An in-memory CSV table: column names and rows of cells (one cell per
column, in column order). -/
structure CsvDf where
  cols : List String
  cells : List (List String)
deriving DecidableEq

/-- `df[available_cols]`: keep the selected columns, in the selection's
order, projecting every row accordingly. -/
def selectCols (df : CsvDf) (sel : List String) : CsvDf :=
  let idxs := sel.filterMap fun c => df.cols.findIdx? (· == c)
  { cols := sel, cells := df.cells.map fun r => idxs.filterMap fun i => r[i]? }

/-- A `query_table` response: the success payload
`(rows, columns, data, truncated)` or an error with its auxiliary list
(`available_tables` / `available_columns`, empty when the error carries
none). -/
inductive QTOut where
  | ok (rows : ℕ) (columns : List String) (data : List (List String))
      (truncated : Bool)
  | err (error : String) (extra : List String)
deriving DecidableEq

/-- The `query_table` branch of `call_tool` in `src/main.py`: validate
`table_name`, look the table up, optionally select the requested columns
(silently dropping those that do not exist, erroring only when none exist;
an empty `columns` list is falsy and skips selection entirely), then cut to
`limit` rows. -/
def query_table (table_name : Option String) (limit : ℕ)
    (columns : Option (List String)) (tables : List (String × CsvDf)) :
    QTOut :=
  if isBlank table_name then .err "table_name is required" []
  else if tables.isEmpty then .err "No CSV data loaded" []
  else
    let tn := table_name.getD ""
    match tables.lookup tn with
    | none => .err ("Table \x27" ++ tn ++ "\x27 not found") (tables.map (·.1))
    | some df =>
      let selected : Option CsvDf :=
        match columns with
        | some cs =>
          if cs.isEmpty then some df
          else
            let avail := cs.filter fun c => df.cols.contains c
            if avail.isEmpty then none else some (selectCols df avail)
        | none => some df
      match selected with
      | none => .err "None of the requested columns exist" df.cols
      | some df1 =>
        let truncated := decide (df1.cells.length > limit)
        let cells := if df1.cells.length > limit then df1.cells.take limit
                     else df1.cells
        .ok cells.length df1.cols cells truncated

/-! ### Sales report generation (`analyze_sales_data`, `format_simple_report`,
`send_email_report` and the `generate_report` branch of `call_tool`)

String rendering of numbers abstracts Python's locale formatting (comma
grouping, fixed widths, trailing `.0`): a rational is rendered by its
canonical decimal/fraction form.  The structure and order of every piece of
the report text follow the source. -/

/-- One row of the sales CSV, restricted to the columns the report uses. -/
structure SalesRow where
  region : String
  sales : ℚ
  benchmark : ℚ
deriving DecidableEq

/-- One row of the aggregated `regional` frame. -/
structure RegionalPerf where
  region : String
  sales : ℚ
  benchmark : ℚ
  performance_pct : ℚ
  status : String
deriving DecidableEq

/-- The dictionary returned by `analyze_sales_data`. -/
structure SalesAnalysis where
  summary : String
  regional_performance : List RegionalPerf
  recommendations : List String
  generated_at : String
deriving DecidableEq

/-- Render a rational for interpolation into report text. -/
def qstr (q : ℚ) : String := toString q

/-- Insertion into an ascending string list (helper for `sortStrings`). -/
def insertStr (s : String) : List String → List String
  | [] => [s]
  | x :: xs => if s < x then s :: x :: xs else x :: insertStr s xs

/-- Ascending sort of the group keys (pandas `groupby` sorts its keys). -/
def sortStrings : List String → List String
  | [] => []
  | x :: xs => insertStr x (sortStrings xs)

/-- The distinct region names, ascending — the index of
`df.groupby('region')`. -/
def regionNames (rows : List SalesRow) : List String :=
  sortStrings (rows.map (·.region)).dedup

/-- `df.groupby('region').agg(sales sum, benchmark sum)` plus the
`performance_pct` (rounded to one decimal) and `status` columns. -/
def regionalAgg (rows : List SalesRow) : List RegionalPerf :=
  (regionNames rows).map fun n =>
    let grp := rows.filter fun r => r.region = n
    let s := (grp.map (·.sales)).sum
    let b := (grp.map (·.benchmark)).sum
    let pct := pyRound ((s - b) / b * 100) 1
    { region := n, sales := s, benchmark := b, performance_pct := pct,
      status := if 0 ≤ pct then "✅ Above" else "⚠️ Below" }

/-- Stable insertion into a performance-descending list. -/
def insertPerf (r : RegionalPerf) : List RegionalPerf → List RegionalPerf
  | [] => [r]
  | x :: xs => if x.performance_pct < r.performance_pct then r :: x :: xs
               else x :: insertPerf r xs

/-- `regional.sort_values('performance_pct', ascending=False)` (best
first). -/
def sortPerfDesc : List RegionalPerf → List RegionalPerf
  | [] => []
  | x :: xs => insertPerf x (sortPerfDesc xs)

/-- `analyze_sales_data`: aggregate by region, rank regions, compute the
overall variance, and produce the summary sentence and recommendation list.
`none` models the exception path on an empty table (`iloc[0]` raises, the
caller's `except` turns it into an error payload).  `now` stands for the
`datetime.now()` timestamp string. -/
def analyze_sales_data (rows : List SalesRow) (now : String) :
    Option SalesAnalysis :=
  match h : sortPerfDesc (regionalAgg rows) with
  | [] => none
  | best :: rest =>
    let regional := best :: rest
    let worst := regional.getLast (by simp)
    let total_sales := (regional.map (·.sales)).sum
    let total_benchmark := (regional.map (·.benchmark)).sum
    let overall_pct := pyRound ((total_sales - total_benchmark)
      / total_benchmark * 100) 1
    let summary :=
      "Overall sales are " ++ (if 0 ≤ overall_pct then "above" else "below")
        ++ " target by " ++ qstr (abs overall_pct) ++ "%. "
        ++ best.region ++ " leads with +" ++ qstr best.performance_pct
        ++ "%. " ++ worst.region ++ " needs attention at "
        ++ qstr worst.performance_pct ++ "%."
    let recsWorst : List String :=
      if worst.performance_pct < -5 then
        ["🔴 Urgent: Focus on " ++ worst.region ++ " - "
          ++ qstr (abs worst.performance_pct) ++ "% below target"]
      else if worst.performance_pct < 0 then
        ["⚠️ Monitor: " ++ worst.region ++ " slightly below target"]
      else []
    let recsBest : List String :=
      if 10 < best.performance_pct then
        ["🟢 Replicate " ++ best.region ++ "\x27s success (+"
          ++ qstr best.performance_pct ++ "%)"]
      else []
    some { summary := summary
           regional_performance := regional
           recommendations := recsWorst ++ recsBest
             ++ ["📊 Review product mix in underperforming regions"]
           generated_at := now }

/-- A 60-character separator of `=` signs. -/
def eqLine : String := String.mk (List.replicate 60 '=')

/-- A 60-character separator of `-` signs. -/
def dashLine : String := String.mk (List.replicate 60 '-')

/-- One line of the regional performance table. -/
def regionLine (r : RegionalPerf) : String :=
  r.region ++ " $" ++ qstr r.sales ++ " $" ++ qstr r.benchmark ++ " "
    ++ qstr r.performance_pct ++ "% " ++ r.status ++ "\n"

/-- `format_simple_report`: the plain-text report shown in the tool
response. -/
def format_simple_report (a : SalesAnalysis) : String :=
  "📊 WEEKLY SALES REPORT\n" ++ eqLine ++ "\n\n"
    ++ "📝 SUMMARY\n" ++ a.summary ++ "\n\n"
    ++ "📈 PERFORMANCE BY REGION\n" ++ dashLine ++ "\n"
    ++ "Region Sales Target Variance Status\n" ++ dashLine ++ "\n"
    ++ String.join (a.regional_performance.map regionLine)
    ++ dashLine ++ "\n\n"
    ++ "💡 RECOMMENDATIONS\n"
    ++ String.join (a.recommendations.enum.map fun p =>
        toString (p.1 + 1) ++ ". " ++ p.2 ++ "\n")
    ++ "\n" ++ eqLine ++ "\nGenerated: " ++ a.generated_at

/-- `send_email_report`: returns the delivery status string and the number
of SMTP connections attempted.  Absent or placeholder credentials short-
circuit to a warning before any SMTP contact; an SMTP failure (the
`Except.error` outcome) is caught and rendered, never raised. -/
def send_email_report (email_password email_sender email_recipient : String)
    (smtp : Except String Unit) : String × ℕ :=
  if email_password = "" ∨ email_sender = "your-email@gmail.com" then
    ("⚠️ Email not configured (see setup instructions)", 0)
  else
    match smtp with
    | .ok _ => ("✅ Email sent to " ++ email_recipient, 1)
    | .error e => ("❌ Email failed: " ++ e, 1)

/-- A `generate_report` response: the report text, or the JSON error
payload's message. -/
inductive GenOut where
  | report (text : String)
  | errJson (error : String)
deriving DecidableEq

/-- The `generate_report` branch of `call_tool` in `src/main.py`:
`table_name` defaults to `"sales_data"`, `send_email` to `False`; the
report text is computed first, and only a truthy `send_email` invokes the
email path, whose status string is appended after `"\n\n📧 "`.  The second
component counts SMTP connections attempted. -/
def generate_report (table_name : Option String) (send_email : Option Bool)
    (tables : List (String × List SalesRow))
    (email_password email_sender email_recipient : String)
    (smtp : Except String Unit) (now : String) : GenOut × ℕ :=
  let tn := table_name.getD "sales_data"
  match tables.lookup tn with
  | none => (.errJson ("Table \x27" ++ tn ++ "\x27 not found"), 0)
  | some rows =>
    match analyze_sales_data rows now with
    | none => (.errJson "single positional indexer is out-of-bounds", 0)
    | some analysis =>
      let report_text := format_simple_report analysis
      if send_email.getD false then
        let st := send_email_report email_password email_sender
          email_recipient smtp
        (.report (report_text ++ "\n\n📧 " ++ st.1), st.2)
      else
        (.report report_text, 0)

/-! ## Concrete data for counterexamples and witnesses -/

/-- A concrete single-observation weekly series whose one row carries a
nonzero `mrr_change`. -/
def singleObsRow : LeversRow :=
  { week := 0, total_mrr := 100000, mrr_change := 500, win_rate_pct := 10,
    at_risk_pct := 5, at_risk_deals := 2 }

/-- A concrete loaded CSV table state: one table `t` with columns
`["a", "b"]` and one row. -/
def c9tables : List (String × CsvDf) := [("t", ⟨["a", "b"], [["1", "2"]]⟩)]

/-- Concrete sales rows for the report witnesses. -/
def wSalesRows : List SalesRow := [⟨"East", 100, 80⟩]

/-- The loaded-tables state for the report witnesses. -/
def wTables : List (String × List SalesRow) := [("sales_data", wSalesRows)]

/-- The analysis produced by `analyze_sales_data` on `wSalesRows` (the
`getD` default is never reached: the one-region aggregation is
nonempty, so the analysis is `some`). -/
def wAnalysis : SalesAnalysis :=
  (analyze_sales_data wSalesRows "t").getD ⟨"", [], [], ""⟩

/-! ## Helper lemmas -/

theorem selectCols_cols (df : CsvDf) (sel : List String) :
    (selectCols df sel).cols = sel := rfl

theorem pdTail_length (n : ℕ) (l : List α) : (pdTail n l).length = min l.length n := by
  simp [pdTail]
  omega

theorem pdTail_singleton (n : ℕ) (hn : 0 < n) (a : α) : pdTail n [a] = [a] := by
  unfold pdTail
  have h : [a].length - n = 0 := by simp; omega
  rw [h]
  rfl

theorem insertByWeek_length (r : LeversRow) (l : List LeversRow) :
    (insertByWeek r l).length = l.length + 1 := by
  induction l with
  | nil => rfl
  | cons x xs ih =>
    simp only [insertByWeek]
    split
    · simp [ih]
    · simp

theorem sortByWeek_length (l : List LeversRow) :
    (sortByWeek l).length = l.length := by
  induction l with
  | nil => rfl
  | cons x xs ih => simp [sortByWeek, insertByWeek_length, ih]

theorem sortByWeek_isEmpty_false (l : List LeversRow) (h : l ≠ []) :
    (sortByWeek l).isEmpty = false := by
  have hlen := sortByWeek_length l
  rcases h2 : sortByWeek l with _ | ⟨b, bs⟩
  · exfalso
    rw [h2] at hlen
    exact h (List.eq_nil_of_length_eq_zero hlen.symm)
  · rfl

theorem trendPredict_getElem (v0 m : ℚ) (lw : ℤ) (n : ℕ) :
    ∀ (k i : ℕ), i < n → ∀ (fm : ℚ), fm = v0 + (k : ℚ) * m →
    (trendPredict v0 m lw fm k n)[i]? =
      some { week := lw + 7 * ((k : ℤ) + (i : ℤ) + 1),
             predicted_mrr := pyRound (v0 + ((k : ℚ) + (i : ℚ) + 1) * m) 0,
             change_pct :=
               pyRound ((v0 + ((k : ℚ) + (i : ℚ) + 1) * m - v0) / v0 * 100) 1 } := by
  induction n with
  | zero => intro k i hi; omega
  | succ n ih =>
    intro k i hi fm hfm
    cases i with
    | zero =>
      simp only [trendPredict, List.getElem?_cons_zero, Option.some.injEq]
      subst hfm
      rw [ForecastPoint.mk.injEq]
      refine ⟨by push_cast; ring, ?_, ?_⟩
      · congr 1; push_cast; ring
      · congr 2; push_cast; ring
    | succ i =>
      simp only [trendPredict, List.getElem?_cons_succ]
      have h2 : fm + m = v0 + ((k + 1 : ℕ) : ℚ) * m := by
        subst hfm; push_cast; ring
      have := ih (k + 1) i (by omega) (fm + m) h2
      rw [this]
      congr 2
      · push_cast; ring_nf
      · push_cast; ring_nf
      · push_cast; ring_nf

/-! ## Claim theorems -/

/-- C1: for an input series with last observed value `v0` and trend `m`
equal to the arithmetic mean of the last 4 (or fewer, when fewer exist)
`mrr_change` deltas, the trend forecaster produces for each week `k = i + 1`
(`1 ≤ k ≤ weeks`) a predicted value equal to `v0 + k * m` (rounded to an
integer in the output row) and a `change_pct` of
`(v0 + k * m - v0) / v0 * 100`, rounded to one decimal in the output row. -/
theorem forecast_trend_linear (rows : List TrendRow) (weeks : ℕ)
    (last : TrendRow) (hlast : rows.getLast? = some last)
    (i : ℕ) (hi : i < weeks) :
    ∃ out : TrendOut,
      forecast_trend rows weeks = some out ∧
      out.predictions[i]? =
        some { week := last.week + 7 * ((i : ℤ) + 1),
               predicted_mrr := pyRound (last.total_mrr + ((i : ℚ) + 1) *
                 seriesMean (pdTail 4 (rows.map (·.mrr_change)))) 0,
               change_pct := pyRound ((last.total_mrr + ((i : ℚ) + 1) *
                 seriesMean (pdTail 4 (rows.map (·.mrr_change)))
                 - last.total_mrr) / last.total_mrr * 100) 1 } ∧
      (pdTail 4 (rows.map (·.mrr_change))).length = min rows.length 4 := by
  have hout : forecast_trend rows weeks = some
      { baseline_mrr := pyRound last.total_mrr 0,
        weekly_trend := pyRound (seriesMean (pdTail 4 (rows.map (·.mrr_change)))) 0,
        predictions := trendPredict last.total_mrr
          (seriesMean (pdTail 4 (rows.map (·.mrr_change)))) last.week
          last.total_mrr 0 weeks } := by
    unfold forecast_trend
    rw [hlast]
  refine ⟨_, hout, ?_, ?_⟩
  · simp only
    have hkey := trendPredict_getElem last.total_mrr
      (seriesMean (pdTail 4 (rows.map (·.mrr_change)))) last.week weeks 0 i hi
      last.total_mrr (by push_cast; ring)
    rw [hkey]
    congr 2
    · push_cast; ring
    · congr 1; push_cast; ring
    · congr 2; push_cast; ring
  · rw [pdTail_length, List.length_map]

/-- Witness for C1 at a concrete one-row series. -/
theorem forecast_trend_linear_witness :
    ([⟨0, 100000, 2000⟩] : List TrendRow).getLast? = some ⟨0, 100000, 2000⟩ ∧
    0 < 4 ∧
    (∃ out : TrendOut,
      forecast_trend [⟨0, 100000, 2000⟩] 4 = some out ∧
      out.predictions[0]? =
        some { week := (0 : ℤ) + 7 * (((0 : ℕ) : ℤ) + 1),
               predicted_mrr := pyRound ((100000 : ℚ) + (((0 : ℕ) : ℚ) + 1) *
                 seriesMean (pdTail 4 (([⟨0, 100000, 2000⟩] : List TrendRow).map (·.mrr_change)))) 0,
               change_pct := pyRound (((100000 : ℚ) + (((0 : ℕ) : ℚ) + 1) *
                 seriesMean (pdTail 4 (([⟨0, 100000, 2000⟩] : List TrendRow).map (·.mrr_change)))
                 - 100000) / 100000 * 100) 1 } ∧
      (pdTail 4 (([⟨0, 100000, 2000⟩] : List TrendRow).map (·.mrr_change))).length =
        min ([⟨0, 100000, 2000⟩] : List TrendRow).length 4) :=
  ⟨rfl, by norm_num,
   forecast_trend_linear [⟨0, 100000, 2000⟩] 4 ⟨0, 100000, 2000⟩ rfl 0 (by norm_num)⟩

/-- C2: for a SQL query whose warehouse result has `R` rows and a requested
limit `L`, `_query_bigquery` returns exactly `min R L` rows in its data
payload, reports `rows = min R L`, and sets `truncated = true` iff
`R > L`. -/
theorem query_bigquery_truncation (Row : Type) (sql : String)
    (hsql : sql ≠ "") (limit : ℕ) (df : DataFrame Row) :
    ∃ (data : List Row) (trunc : Bool),
      query_bigquery Row (some sql) limit (.ok df) =
        (.ok (min df.rows.length limit, df.cols, data, trunc), 1) ∧
      data.length = min df.rows.length limit ∧
      (trunc = true ↔ df.rows.length > limit) := by
  unfold query_bigquery
  have hb : isBlank (some sql) = false := by
    simp [isBlank, hsql]
  rw [hb]
  simp only [Bool.false_eq_true, if_false]
  by_cases h : df.rows.length > limit
  · refine ⟨df.rows.take limit, true, ?_, ?_, ?_⟩
    · simp only [if_pos h, decide_eq_true h]
      rw [List.length_take, Nat.min_comm]
    · rw [List.length_take, Nat.min_comm]
    · simp [h]
  · refine ⟨df.rows, false, ?_, ?_, ?_⟩
    · simp only [if_neg h, decide_eq_false h]
      rw [Nat.min_eq_left (Nat.le_of_not_lt h)]
    · rw [Nat.min_eq_left (Nat.le_of_not_lt h)]
    · simp [h]

/-- Witness for C2 at a concrete three-row result with limit 2. -/
theorem query_bigquery_truncation_witness :
    ("SELECT 1" ≠ "") ∧
    (∃ (data : List ℕ) (trunc : Bool),
      query_bigquery ℕ (some "SELECT 1") 2 (.ok ⟨["a"], [10, 20, 30]⟩) =
        (.ok (min ([10, 20, 30] : List ℕ).length 2, ["a"], data, trunc), 1) ∧
      data.length = min ([10, 20, 30] : List ℕ).length 2 ∧
      (trunc = true ↔ ([10, 20, 30] : List ℕ).length > 2)) :=
  ⟨by decide,
   query_bigquery_truncation ℕ "SELECT 1" (by decide) 2 ⟨["a"], [10, 20, 30]⟩⟩

/-- C3 counterexample: for the SQL query tool, the missing-required-argument
error message is `"sql query is required"`, not `"<field> is required"` with
the field's name `sql` (which would read `"sql is required"`). -/
theorem required_arg_message_counterexample :
    (query_bigquery Unit none 100 (.ok ⟨[], []⟩)).1 =
      .err "sql query is required" ∧
    "sql query is required" ≠ "sql is required" :=
  ⟨rfl, by decide⟩

/-- C3 (amended): for every tool call in which a required argument is absent
or empty, the handler returns a `success: false` payload whose error message
is `"<field> is required"` for the `dataset` / `table` / `table_name`
tools and `"sql query is required"` for the SQL query tool, and no
warehouse-client call is made (the call count is zero). -/
theorem missing_required_no_warehouse_call (arg : Option String)
    (h : arg = none ∨ arg = some "") (Row : Type)
    (clientTables : Except String (List String))
    (tinfo : Except String TableInfo)
    (sampleQ queryQ : Except String (DataFrame Row))
    (stats : String → Except String (ℕ × ℕ))
    (nrows limit : ℕ) (csv : List (String × CsvDf)) :
    list_tables arg clientTables = (.err "dataset is required", 0) ∧
    describe_table arg tinfo = (.err "table is required", 0) ∧
    sample_table Row arg nrows sampleQ = (.err "table is required", 0) ∧
    query_bigquery Row arg limit queryQ = (.err "sql query is required", 0) ∧
    profile_table arg tinfo stats = (.err "table is required", 0) ∧
    query_table arg limit none csv = .err "table_name is required" [] := by
  rcases h with h | h <;> subst h <;>
    exact ⟨rfl, rfl, rfl, rfl, rfl, rfl⟩

/-- Witness for C3 (amended) at `arg = none`. -/
theorem missing_required_no_warehouse_call_witness :
    ((none : Option String) = none ∨ (none : Option String) = some "") ∧
    (list_tables none (.ok []) = (.err "dataset is required", 0) ∧
     describe_table none (.ok ⟨0, []⟩) = (.err "table is required", 0) ∧
     sample_table Unit none 5 (.ok ⟨[], []⟩) = (.err "table is required", 0) ∧
     query_bigquery Unit none 100 (.ok ⟨[], []⟩) =
       (.err "sql query is required", 0) ∧
     profile_table none (.ok ⟨0, []⟩) (fun _ => .ok (0, 0)) =
       (.err "table is required", 0) ∧
     query_table none 1000 none [] = .err "table_name is required" []) :=
  ⟨Or.inl rfl,
   missing_required_no_warehouse_call none (Or.inl rfl) Unit (.ok [])
     (.ok ⟨0, []⟩) (.ok ⟨[], []⟩) (.ok ⟨[], []⟩) (fun _ => .ok (0, 0)) 5 100 []⟩

/-- C4: when the feature-importance query raises and the other queries
succeed (on a nonempty weekly series), the composite forecast report still
returns a report, its feature section is the fallback list
`[{"lever": "Deal Close", "importance_pct": 74}]`, and the current-metrics,
forecast, deals and history sections are computed from their own queries'
rows. -/
theorem report_feature_fallback (rows : List LeversRow) (hrows : rows ≠ [])
    (e : String) (ds : List Deal) :
    forecast_mrr_report ⟨.ok rows, .error e, .ok ds⟩ =
      .report (assembleReport (sortByWeek rows)
        [{ lever := "Deal Close", importance_pct := 74, feature := none }] ds) ∧
    (assembleReport (sortByWeek rows)
        [{ lever := "Deal Close", importance_pct := 74, feature := none }]
        ds).top_features =
      [{ lever := "Deal Close", importance_pct := 74, feature := none }] ∧
    (assembleReport (sortByWeek rows)
        [{ lever := "Deal Close", importance_pct := 74, feature := none }]
        ds).current_mrr = (lastRowOf (sortByWeek rows)).total_mrr ∧
    (assembleReport (sortByWeek rows)
        [{ lever := "Deal Close", importance_pct := 74, feature := none }]
        ds).predictions =
      reportPredict (seriesMean (pdTail 4 ((sortByWeek rows).map (·.mrr_change))))
        (lastRowOf (sortByWeek rows)).total_mrr 0 4 ∧
    (assembleReport (sortByWeek rows)
        [{ lever := "Deal Close", importance_pct := 74, feature := none }]
        ds).deals_to_win = ds.filter (·.action_type == "WIN") ∧
    (assembleReport (sortByWeek rows)
        [{ lever := "Deal Close", importance_pct := 74, feature := none }]
        ds).deals_to_save = ds.filter (·.action_type == "SAVE") ∧
    (assembleReport (sortByWeek rows)
        [{ lever := "Deal Close", importance_pct := 74, feature := none }]
        ds).history = (pdTail 15 (sortByWeek rows)).map histProj := by
  refine ⟨?_, rfl, rfl, rfl, rfl, rfl, rfl⟩
  unfold forecast_mrr_report
  simp only
  rw [sortByWeek_isEmpty_false rows hrows]
  simp only [Bool.false_eq_true, if_false]

/-- Witness for C4 at a concrete one-row series and one deal. -/
theorem report_feature_fallback_witness :
    (([defaultLeversRow] : List LeversRow) ≠ []) ∧
    (forecast_mrr_report ⟨.ok [defaultLeversRow], .error "boom",
        .ok [⟨"Acme", "WIN", 100, 30, "EU"⟩]⟩ =
      .report (assembleReport (sortByWeek [defaultLeversRow])
        [{ lever := "Deal Close", importance_pct := 74, feature := none }]
        [⟨"Acme", "WIN", 100, 30, "EU"⟩])) :=
  ⟨by decide,
   (report_feature_fallback [defaultLeversRow] (by decide) "boom"
     [⟨"Acme", "WIN", 100, 30, "EU"⟩]).1⟩

/-- C5: for every profiled column whose stats query succeeds, `null_pct` is
reported as `0` when the table's row count is zero (never a division by
zero), and as `null_count / row_count * 100` rounded to one decimal when the
row count is positive. -/
theorem profile_null_pct (t : String) (ht : t ≠ "") (ti : TableInfo)
    (stats : String → Except String (ℕ × ℕ))
    (f : BQField) (hf : f ∈ ti.schema.take 20)
    (nc dc : ℕ) (hs : stats f.name = .ok (nc, dc)) :
    ∃ out : ProfileOut,
      (profile_table (some t) (.ok ti) stats).1 = .ok out ∧
      ({ name := f.name, type := f.field_type,
         null_pct := some (if ti.num_rows > 0
           then pyRound ((nc : ℚ) / (ti.num_rows : ℚ) * 100) 1 else 0),
         distinct_count := some dc } : ProfCol) ∈ out.profile ∧
      (ti.num_rows = 0 →
        ({ name := f.name, type := f.field_type, null_pct := some 0,
           distinct_count := some dc } : ProfCol) ∈ out.profile) := by
  have hb : isBlank (some t) = false := by simp [isBlank, ht]
  unfold profile_table
  rw [hb]
  simp only [Bool.false_eq_true, if_false]
  refine ⟨_, rfl, ?_, ?_⟩
  · simp only
    refine List.mem_map.mpr ⟨f, hf, ?_⟩
    simp [profileColumn, hs]
  · intro h0
    simp only
    refine List.mem_map.mpr ⟨f, hf, ?_⟩
    simp [profileColumn, hs, h0]

/-- Witness for C5 on a zero-row table with one column. -/
theorem profile_null_pct_witness :
    ("ds.t" ≠ "") ∧
    (⟨"c", "STRING", "NULLABLE"⟩ : BQField) ∈
      (⟨0, [⟨"c", "STRING", "NULLABLE"⟩]⟩ : TableInfo).schema.take 20 ∧
    (fun _ => (.ok (0, 0) : Except String (ℕ × ℕ))) "c" = .ok (0, 0) ∧
    (∃ out : ProfileOut,
      (profile_table (some "ds.t") (.ok ⟨0, [⟨"c", "STRING", "NULLABLE"⟩]⟩)
        (fun _ => .ok (0, 0))).1 = .ok out ∧
      ({ name := "c", type := "STRING",
         null_pct := some (if (0 : ℕ) > 0
           then pyRound (((0 : ℕ) : ℚ) / (((0 : ℕ)) : ℚ) * 100) 1 else 0),
         distinct_count := some 0 } : ProfCol) ∈ out.profile ∧
      ((0 : ℕ) = 0 →
        ({ name := "c", type := "STRING", null_pct := some 0,
           distinct_count := some 0 } : ProfCol) ∈ out.profile)) :=
  ⟨by decide, by decide, rfl,
   profile_null_pct "ds.t" (by decide) ⟨0, [⟨"c", "STRING", "NULLABLE"⟩]⟩
     (fun _ => .ok (0, 0)) ⟨"c", "STRING", "NULLABLE"⟩ (by decide) 0 0 rfl⟩

/-- C6 counterexample: on a series with exactly one observation the reported
week-over-week change is the latest row's `mrr_change` value — here `500`,
not zero. -/
theorem single_observation_wow_counterexample :
    forecast_mrr_report ⟨.ok [singleObsRow], .ok [], .ok []⟩ =
      .report (assembleReport [singleObsRow] [] []) ∧
    (assembleReport [singleObsRow] [] []).wow_change = 500 ∧
    (500 : ℚ) ≠ 0 := by
  refine ⟨rfl, rfl, by norm_num⟩

/-- C6 (amended): on a series with exactly one observation, the "previous"
row used for the week-over-week computation equals the latest row, and the
reported week-over-week change equals that row's `mrr_change` value (zero
only when the stored delta is zero); the trend mean is taken over however
many deltas are available (at most 4). -/
theorem single_observation_previous_equals_latest (r : LeversRow)
    (fs : List Feature) (ds : List Deal) :
    prevRowOf [r] = lastRowOf [r] ∧
    forecast_mrr_report ⟨.ok [r], .ok fs, .ok ds⟩ =
      .report (assembleReport [r] fs ds) ∧
    (assembleReport [r] fs ds).wow_change = r.mrr_change ∧
    (assembleReport [r] fs ds).wow_pct =
      (if r.total_mrr = 0 then 0 else r.mrr_change / r.total_mrr * 100) ∧
    (assembleReport [r] fs ds).avg_change = r.mrr_change ∧
    ∀ (deltas : List ℚ), (pdTail 4 deltas).length = min deltas.length 4 := by
  refine ⟨rfl, rfl, rfl, rfl, ?_, fun deltas => pdTail_length 4 deltas⟩
  show seriesMean (pdTail 4 ([r].map (·.mrr_change))) = r.mrr_change
  rw [List.map_singleton, pdTail_singleton 4 (by norm_num)]
  simp [seriesMean]

/-- C7: the profiler profiles exactly `min (schema length) 20` columns, the
first 20 in schema order, issuing one stats query per profiled column
(total client calls: one `get_table` plus one query per column); a failing
per-column query degrades only that column's `null_pct` and
`distinct_count` to null, and the profile still returns success with
`columns_profiled = min (schema length) 20`. -/
theorem profile_columns_cap (t : String) (ht : t ≠ "") (ti : TableInfo)
    (stats : String → Except String (ℕ × ℕ)) :
    (profile_table (some t) (.ok ti) stats).2 = 1 + min ti.schema.length 20 ∧
    ∃ out : ProfileOut,
      (profile_table (some t) (.ok ti) stats).1 = .ok out ∧
      out.columns_profiled = min ti.schema.length 20 ∧
      out.profile = (ti.schema.take 20).map (profileColumn ti.num_rows stats) ∧
      (∀ f ∈ ti.schema.take 20, ∀ e, stats f.name = .error e →
        profileColumn ti.num_rows stats f =
          { name := f.name, type := f.field_type, null_pct := none,
            distinct_count := none }) ∧
      out.row_count = ti.num_rows ∧
      out.column_count = ti.schema.length := by
  have hb : isBlank (some t) = false := by simp [isBlank, ht]
  unfold profile_table
  rw [hb]
  simp only [Bool.false_eq_true, if_false]
  refine ⟨?_, _, rfl, ?_, rfl, ?_, rfl, rfl⟩
  · rw [List.length_take, Nat.min_comm]
  · simp only [List.length_map, List.length_take, Nat.min_comm]
  · intro f _ e he
    simp [profileColumn, he]

/-- Witness for C7 on a 21-column schema (only 20 profiled), with every
stats query failing. -/
theorem profile_columns_cap_witness :
    ("ds.t" ≠ "") ∧
    ((profile_table (some "ds.t")
        (.ok ⟨7, (List.range 21).map fun i => ⟨toString i, "STRING", "NULLABLE"⟩⟩)
        (fun _ => .error "quota")).2 =
      1 + min ((List.range 21).map fun i =>
        (⟨toString i, "STRING", "NULLABLE"⟩ : BQField)).length 20 ∧
    ∃ out : ProfileOut,
      (profile_table (some "ds.t")
        (.ok ⟨7, (List.range 21).map fun i => ⟨toString i, "STRING", "NULLABLE"⟩⟩)
        (fun _ => .error "quota")).1 = .ok out ∧
      out.columns_profiled = min ((List.range 21).map fun i =>
        (⟨toString i, "STRING", "NULLABLE"⟩ : BQField)).length 20 ∧
      out.profile = (((List.range 21).map fun i =>
        (⟨toString i, "STRING", "NULLABLE"⟩ : BQField)).take 20).map
          (profileColumn 7 (fun _ => .error "quota")) ∧
      (∀ f ∈ ((List.range 21).map fun i =>
          (⟨toString i, "STRING", "NULLABLE"⟩ : BQField)).take 20,
        ∀ e, (fun _ => (.error "quota" : Except String (ℕ × ℕ))) f.name = .error e →
        profileColumn 7 (fun _ => .error "quota") f =
          { name := f.name, type := f.field_type, null_pct := none,
            distinct_count := none }) ∧
      out.row_count = 7 ∧
      out.column_count = ((List.range 21).map fun i =>
        (⟨toString i, "STRING", "NULLABLE"⟩ : BQField)).length) :=
  ⟨by decide,
   profile_columns_cap "ds.t" (by decide)
     ⟨7, (List.range 21).map fun i => ⟨toString i, "STRING", "NULLABLE"⟩⟩
     (fun _ => .error "quota")⟩

/-- C8: on a `generate_report` call that triggers email delivery, any
failure of the email send — an SMTP error or absent/placeholder
credentials — is caught inside `send_email_report` and surfaced as a
descriptive status string appended to the returned report text after
`"\n\n📧 "`; the tool response is always a report text, never a
propagated exception. -/
theorem email_failure_contained (table_name : Option String)
    (tables : List (String × List SalesRow)) (pw sender rcpt now : String)
    (rows : List SalesRow)
    (hlook : tables.lookup (table_name.getD "sales_data") = some rows)
    (a : SalesAnalysis) (ha : analyze_sales_data rows now = some a)
    (smtp : Except String Unit) :
    generate_report table_name (some true) tables pw sender rcpt smtp now =
      (.report (format_simple_report a ++ "\n\n📧 "
        ++ (send_email_report pw sender rcpt smtp).1),
       (send_email_report pw sender rcpt smtp).2) ∧
    (∀ e, smtp = .error e → pw ≠ "" → sender ≠ "your-email@gmail.com" →
      (send_email_report pw sender rcpt smtp).1 = "❌ Email failed: " ++ e) ∧
    (pw = "" →
      (send_email_report pw sender rcpt smtp).1 =
        "⚠️ Email not configured (see setup instructions)") := by
  refine ⟨?_, ?_, ?_⟩
  · unfold generate_report
    simp only [hlook, ha]
    rfl
  · rintro e rfl hp hs
    unfold send_email_report
    rw [if_neg (by simp [hp, hs])]
  · intro h
    unfold send_email_report
    rw [if_pos (Or.inl h)]

/-- Witness for C8: unconfigured credentials and a failing SMTP outcome on
the concrete loaded table. -/
theorem email_failure_contained_witness :
    wTables.lookup ((none : Option String).getD "sales_data") = some wSalesRows ∧
    analyze_sales_data wSalesRows "t" = some wAnalysis ∧
    (generate_report none (some true) wTables "" "s" "r" (.error "boom") "t" =
      (.report (format_simple_report wAnalysis ++ "\n\n📧 "
        ++ (send_email_report "" "s" "r" (.error "boom")).1),
       (send_email_report "" "s" "r" (.error "boom")).2) ∧
     (∀ e, (.error "boom" : Except String Unit) = .error e →
        ("" : String) ≠ "" → ("s" : String) ≠ "your-email@gmail.com" →
        (send_email_report "" "s" "r" (.error "boom")).1 =
          "❌ Email failed: " ++ e) ∧
     (("" : String) = "" →
        (send_email_report "" "s" "r" (.error "boom")).1 =
          "⚠️ Email not configured (see setup instructions)")) :=
  ⟨rfl, rfl,
   email_failure_contained none wTables "" "s" "r" "t" wSalesRows rfl
     wAnalysis rfl (.error "boom")⟩

/-- C9 counterexample: `query_table` on a table with columns `["a", "b"]`
and requested columns `["b", "a"]` returns the columns in the REQUESTED
order `["b", "a"]`, not in table column order `["a", "b"]`. -/
theorem requested_column_order_counterexample :
    query_table (some "t") 1000 (some ["b", "a"]) c9tables =
      .ok 1 ["b", "a"] [["2", "1"]] false ∧
    (["b", "a"] : List String) ≠ ["a", "b"] :=
  ⟨by decide, by decide⟩

/-- C9 (amended): for a `query_table` call requesting a nonempty list of
columns on an existing table, if at least one requested column exists the
handler returns `success: true` with exactly the requested columns that
exist, in REQUESTED order (silently dropping the non-existent ones); it
returns `{success: false, error: "None of the requested columns exist"}`
together with the table's available columns if and only if no requested
column exists. -/
theorem query_table_requested_columns (tn : String) (htn : tn ≠ "")
    (tables : List (String × CsvDf)) (hne : tables ≠ [])
    (df : CsvDf) (hlook : tables.lookup tn = some df)
    (cs : List String) (hcs : cs ≠ []) (limit : ℕ) :
    (cs.filter (fun c => df.cols.contains c) ≠ [] →
      ∃ (n : ℕ) (data : List (List String)) (tr : Bool),
        query_table (some tn) limit (some cs) tables =
          .ok n (cs.filter (fun c => df.cols.contains c)) data tr) ∧
    (query_table (some tn) limit (some cs) tables =
        .err "None of the requested columns exist" df.cols ↔
      cs.filter (fun c => df.cols.contains c) = []) := by
  have hblank : isBlank (some tn) = false := by simp [isBlank, htn]
  have hemp : tables.isEmpty = false := by
    cases tables with
    | nil => exact absurd rfl hne
    | cons x xs => rfl
  have hcsE : cs.isEmpty = false := by
    cases cs with
    | nil => exact absurd rfl hcs
    | cons x xs => rfl
  by_cases hav : cs.filter (fun c => df.cols.contains c) = []
  · have hQ : query_table (some tn) limit (some cs) tables =
        .err "None of the requested columns exist" df.cols := by
      simp only [query_table, hblank, hemp, Bool.false_eq_true, if_false,
        Option.getD_some, hlook, hcsE]
      have hcond : (cs.filter fun c => df.cols.contains c).isEmpty = true := by
        rw [hav]
        rfl
      rw [hcond]
      rfl
    refine ⟨fun hav2 => absurd hav hav2, ?_⟩
    rw [hQ]
    exact iff_of_true rfl hav
  · have havE : (cs.filter (fun c => df.cols.contains c)).isEmpty = false := by
      rcases h2 : cs.filter (fun c => df.cols.contains c) with _ | ⟨x, xs⟩
      · exact absurd h2 hav
      · rfl
    refine ⟨fun _ => ?_, ?_⟩
    · simp only [query_table, hblank, hemp, Bool.false_eq_true, if_false,
        Option.getD_some, hlook, hcsE, havE]
      exact ⟨_, _, _, rfl⟩
    · constructor
      · intro heq
        simp only [query_table, hblank, hemp, Bool.false_eq_true, if_false,
          Option.getD_some, hlook, hcsE, havE] at heq
        exact QTOut.noConfusion heq
      · intro h2
        exact absurd h2 hav

/-- Witness for C9 (amended) on the concrete table with columns
`["a", "b"]` and request `["b", "a"]`. -/
theorem query_table_requested_columns_witness :
    ("t" : String) ≠ "" ∧ c9tables ≠ [] ∧
    c9tables.lookup "t" = some ⟨["a", "b"], [["1", "2"]]⟩ ∧
    (["b", "a"] : List String) ≠ [] ∧
    ((((["b", "a"] : List String)).filter
        (fun c => (⟨["a", "b"], [["1", "2"]]⟩ : CsvDf).cols.contains c) ≠ [] →
      ∃ (n : ℕ) (data : List (List String)) (tr : Bool),
        query_table (some "t") 1000 (some ["b", "a"]) c9tables =
          .ok n ((["b", "a"] : List String).filter
            (fun c => (⟨["a", "b"], [["1", "2"]]⟩ : CsvDf).cols.contains c))
            data tr) ∧
     (query_table (some "t") 1000 (some ["b", "a"]) c9tables =
        .err "None of the requested columns exist"
          (⟨["a", "b"], [["1", "2"]]⟩ : CsvDf).cols ↔
      (["b", "a"] : List String).filter
        (fun c => (⟨["a", "b"], [["1", "2"]]⟩ : CsvDf).cols.contains c) = [])) :=
  ⟨by decide, by decide, by decide, by decide,
   query_table_requested_columns "t" (by decide) c9tables (by decide)
     ⟨["a", "b"], [["1", "2"]]⟩ (by decide) ["b", "a"] (by decide) 1000⟩

/-- C10: with `send_email` absent or `false`, the SMTP path is never
invoked (zero SMTP connections), the returned text is exactly the report
text with nothing appended, and that report text is identical to the report
portion of the `send_email = true` run — the flag affects only the email
side effect and the appended status line. -/
theorem send_email_flag_frame (table_name : Option String)
    (send_email : Option Bool)
    (hse : send_email = none ∨ send_email = some false)
    (tables : List (String × List SalesRow)) (pw sender rcpt now : String)
    (rows : List SalesRow)
    (hlook : tables.lookup (table_name.getD "sales_data") = some rows)
    (a : SalesAnalysis) (ha : analyze_sales_data rows now = some a) :
    (∀ smtp, generate_report table_name send_email tables pw sender rcpt
        smtp now = (.report (format_simple_report a), 0)) ∧
    (∀ smtp, generate_report table_name (some true) tables pw sender rcpt
        smtp now =
      (.report (format_simple_report a ++ "\n\n📧 "
         ++ (send_email_report pw sender rcpt smtp).1),
       (send_email_report pw sender rcpt smtp).2)) := by
  constructor
  · intro smtp
    unfold generate_report
    simp only [hlook, ha]
    rcases hse with h | h <;> subst h <;> rfl
  · intro smtp
    unfold generate_report
    simp only [hlook, ha]
    rfl

/-- Witness for C10 with `send_email = none` on the concrete loaded
table. -/
theorem send_email_flag_frame_witness :
    ((none : Option Bool) = none ∨ (none : Option Bool) = some false) ∧
    wTables.lookup ((none : Option String).getD "sales_data") = some wSalesRows ∧
    analyze_sales_data wSalesRows "t" = some wAnalysis ∧
    ((∀ smtp, generate_report none none wTables "p" "s" "r" smtp "t" =
        (.report (format_simple_report wAnalysis), 0)) ∧
     (∀ smtp, generate_report none (some true) wTables "p" "s" "r" smtp "t" =
        (.report (format_simple_report wAnalysis ++ "\n\n📧 "
           ++ (send_email_report "p" "s" "r" smtp).1),
         (send_email_report "p" "s" "r" smtp).2))) :=
  ⟨Or.inl rfl, rfl, rfl,
   send_email_flag_frame none none (Or.inl rfl) wTables "p" "s" "r" "t"
     wSalesRows rfl wAnalysis rfl⟩
